import Mathlib

/-
Verification of the napd-local-control pump-selection and telemetry core.

The definitions below are a shallow embedding of the Python sources
src/napd_local_control/application.py and src/napd_local_control/dashboard.py.
Machine floats are modelled by rationals, Python None by Option.none, and a
Python expression that raises is modelled with Except.  External collaborators
(the pydoover platform interface, the tag store, socketio) appear only as the
input values they deliver to the embedded functions.
-/

namespace Napd

/-- Mutable state of NapdLocalControlApplication (application.py) together with
the pump selection held by DashboardInterface (dashboard.py): the two sticky
fault flags, the selected pump number, and the one-shot guard flag used by the
start-pump callback. -/
structure AppState where
  hh_pressure_active : Bool
  ll_tank_level_active : Bool
  selected_pump : Nat
  start_first_callback : Bool
  deriving DecidableEq, Repr

/-- Shallow embedding of NapdLocalControlApplication.check_faults
(application.py lines 76-88).  The two AppState tag reads arrive as
Option String (Option.none when the tag is absent).  Note the source uses
if / elif: the tank-level test only runs when neither status equals the
pressure-high-high code. -/
def check_faults (st : AppState) (p1_app_state p2_app_state : Option String) : AppState :=
  if p1_app_state = some "pressure_high_high_level" ∨ p2_app_state = some "pressure_high_high_level" then
    { st with hh_pressure_active := true }
  else if p1_app_state = some "tank_level_low_low_level" ∨ p2_app_state = some "tank_level_low_low_level" then
    { st with ll_tank_level_active := true }
  else
    st

/-- Sequence of per-tick fault checks: check_faults folded over a list of
observed (pump-1 status, pump-2 status) pairs. -/
def observe_run : AppState → List (Option String × Option String) → AppState
  | st, [] => st
  | st, (p1, p2) :: rest => observe_run (check_faults st p1 p2) rest

/-- Shallow embedding of DashboardInterface.toggleSelectedPump
(dashboard.py lines 479-490): the selection becomes 2 when it was 1,
otherwise 1. -/
def toggleSelectedPump (selected_pump : Nat) : Nat :=
  if selected_pump = 1 then 2 else 1

/-- Shallow embedding of NapdLocalControlApplication.selector_button_callback
(application.py lines 149-155): while either fault flag is set, the edge
resets both flags and returns (selection untouched); otherwise it toggles the
selected pump (fault flags untouched). -/
def selector_button_callback (st : AppState) : AppState :=
  if st.hh_pressure_active || st.ll_tank_level_active then
    { st with hh_pressure_active := false, ll_tank_level_active := false }
  else
    { st with selected_pump := toggleSelectedPump st.selected_pump }

/-- Shallow embedding of NapdLocalControlApplication.update_pump_state_tag
(application.py lines 174-179): the list of (pump number, StateWrite code)
tag writes it performs. -/
def update_pump_state_tag (pump_number state : Nat) : List (Nat × Nat) :=
  if pump_number = 1 then [(1, state)]
  else if pump_number = 2 then [(2, state)]
  else []

/-- Shallow embedding of NapdLocalControlApplication.start_pump_callback
(application.py lines 157-165): the first-ever edge only sets the
start_first_callback guard and performs no write; later edges write the
running code 2 to the currently selected pump. -/
def start_pump_callback (st : AppState) : AppState × List (Nat × Nat) :=
  if st.start_first_callback = false then
    ({ st with start_first_callback := true }, [])
  else
    (st, update_pump_state_tag st.selected_pump 2)

/-- Shallow embedding of NapdLocalControlApplication.stop_pump_callback
(application.py lines 167-172): every edge writes the standby code 0 to the
currently selected pump. -/
def stop_pump_callback (st : AppState) : AppState × List (Nat × Nat) :=
  (st, update_pump_state_tag st.selected_pump 0)

/-- One pulse edge on one of the three physical channels. -/
inductive PulseEvent
  | selectorEdge
  | startEdge
  | stopEdge
  deriving DecidableEq, Repr

/-- Dispatch of one pulse edge to its callback, returning the new state and
the StateWrite tag writes the callback performed. -/
def event_step (st : AppState) : PulseEvent → AppState × List (Nat × Nat)
  | PulseEvent.selectorEdge => (selector_button_callback st, [])
  | PulseEvent.startEdge => start_pump_callback st
  | PulseEvent.stopEdge => stop_pump_callback st

/-- State after a sequence of pulse edges has been processed. -/
def run_state (st : AppState) : List PulseEvent → AppState
  | [] => st
  | e :: rest => run_state (event_step st e).1 rest

/-- Rounding of a rational to the nearest integer with ties to even, the
rounding mode of the Python builtin round. -/
def roundHalfEven (q : ℚ) : ℤ :=
  if q - (⌊q⌋ : ℚ) < 1/2 then ⌊q⌋
  else if (1 : ℚ)/2 < q - (⌊q⌋ : ℚ) then ⌊q⌋ + 1
  else if ⌊q⌋ % 2 = 0 then ⌊q⌋ else ⌊q⌋ + 1

/-- Python round(x, 2): round half to even at two decimal places. -/
def round2 (q : ℚ) : ℚ := ((roundHalfEven (q * 100) : ℤ) : ℚ) / 100

/-- System-voltage defaulting in update_target_rate (application.py lines
132-134): sys_voltage falsy (tag absent, or zero) is replaced by 25.0. -/
def defaultVoltage : Option ℚ → ℚ
  | Option.none => 25
  | some v => if v = 0 then 25 else v

/-- Shallow embedding of NapdLocalControlApplication.update_target_rate
(application.py lines 125-141).  Inputs: the stored previous reading
last_ai_input, the selected pump, the reading returned by get_pot_reading
this tick, and the platform voltage tag.  Result on success: the new stored
reading and the optional (pump number, TargetRatePercentage) tag write.
When ai_input is None the guard `ai_input is not None and ...` is skipped and
the later expression ai_input / sys_voltage raises TypeError; when
last_ai_input is None the comparison last_ai_input * 0.99 raises TypeError;
both are modelled as Except.error. -/
def update_target_rate (last_ai_input : Option ℚ) (selected_pump : Nat)
    (ai_input : Option ℚ) (sys_voltage : Option ℚ) :
    Except String (Option ℚ × Option (Nat × ℚ)) :=
  match ai_input, last_ai_input with
  | Option.none, _ => Except.error "TypeError"
  | some _, Option.none => Except.error "TypeError"
  | some a, some l =>
      if l * (99/100) < a ∧ a < l * (101/100) then
        Except.ok (some l, Option.none)
      else
        let v := defaultVoltage sys_voltage
        let target_rate := round2 (a / v * 100)
        if selected_pump = 1 then Except.ok (some a, some (1, target_rate))
        else if selected_pump = 2 then Except.ok (some a, some (2, target_rate))
        else Except.ok (some a, Option.none)

/-- Shallow embedding of NapdLocalControlApplication.main_loop (application.py
lines 66-74): the four steps are awaited in order with no exception handler,
so an exception raised inside update_target_rate prevents
update_dashboard_data and update_pump_leds from running in that tick.  On
success the list of executed steps is returned. -/
def main_loop (last_ai_input : Option ℚ) (selected_pump : Nat)
    (ai_input sys_voltage : Option ℚ) : Except String (List String) :=
  match update_target_rate last_ai_input selected_pump ai_input sys_voltage with
  | Except.error e => Except.error e
  | Except.ok _ =>
      Except.ok ["check_faults", "update_target_rate", "update_dashboard_data", "update_pump_leds"]

/-- Tag readings delivered by one configured solar controller this tick
(application.py lines 223-237); Option.none models an absent tag. -/
structure SolarReading where
  b_voltage : Option ℚ
  b_percent : Option ℚ
  panel_voltage : Option ℚ
  remaining_ah : Option ℚ
  deriving DecidableEq, Repr

/-- Aggregated solar values handed to update_solar_data; the panel_voltage
variable of the source feeds the dashboard panel_power field. -/
structure SolarAggregate where
  battery_voltage : ℚ
  battery_percentage : ℚ
  panel_power : ℚ
  battery_ah : ℚ
  deriving DecidableEq, Repr

/-- Shallow embedding of the solar-aggregation block of
NapdLocalControlApplication.update_dashboard_data (application.py lines
215-258): collect the tags that are present, average voltages and
percentages, average then clamp panel voltage at zero, and sum the remaining
amp-hours; every empty collection yields 0.0. -/
def aggregate_solar (controllers : List SolarReading) : SolarAggregate :=
  let battery_voltages := controllers.filterMap SolarReading.b_voltage
  let battery_percentages := controllers.filterMap SolarReading.b_percent
  let panel_voltage_values := controllers.filterMap SolarReading.panel_voltage
  let battery_ah_values := controllers.filterMap SolarReading.remaining_ah
  { battery_voltage :=
      if battery_voltages ≠ [] then battery_voltages.sum / battery_voltages.length else 0,
    battery_percentage :=
      if battery_percentages ≠ [] then battery_percentages.sum / battery_percentages.length else 0,
    panel_power :=
      if panel_voltage_values ≠ [] then
        let panel_voltage := panel_voltage_values.sum / panel_voltage_values.length
        if panel_voltage < 0 then 0 else panel_voltage
      else 0,
    battery_ah := if battery_ah_values ≠ [] then battery_ah_values.sum else 0 }

/-- Values that can sit at a leaf of the dashboard update dictionary: Python
None, a finite number (int and float are collapsed into the rational model),
a string, or a bool. -/
inductive PyVal
  | none
  | num (q : ℚ)
  | str (s : String)
  | bool (b : Bool)
  deriving DecidableEq, Repr

/-- Value of a digit string read in base 10. -/
def digitsToNat (cs : List Char) : Nat :=
  cs.foldl (fun a c => a * 10 + (c.toNat - Char.toNat '0')) 0

/-- Whitespace stripping on both ends of a character list (the leading and
trailing whitespace tolerance of the Python builtin float). -/
def trimChars (cs : List Char) : List Char :=
  ((cs.dropWhile Char.isWhitespace).reverse.dropWhile Char.isWhitespace).reverse

/-- Models the Python builtin float applied to a string, on plain decimal
literals with optional sign and fractional part; the further forms Python
accepts (exponents, inf, nan, underscores) are outside the model and the
claims never exercise them. -/
def str_to_float (s : String) : Option ℚ :=
  let cs0 := trimChars s.data
  let neg := cs0.head? = some '-'
  let cs := match cs0 with
    | '-' :: t => t
    | '+' :: t => t
    | t => t
  let intPart := cs.takeWhile Char.isDigit
  let rest := cs.dropWhile Char.isDigit
  match rest with
  | [] =>
      if intPart.isEmpty then Option.none
      else
        let v : ℚ := (digitsToNat intPart : ℚ)
        some (if neg then -v else v)
  | '.' :: frac =>
      if frac.all Char.isDigit && (!intPart.isEmpty || !frac.isEmpty) then
        let v : ℚ := (digitsToNat intPart : ℚ) + (digitsToNat frac : ℚ) / (10 ^ frac.length)
        some (if neg then -v else v)
      else Option.none
  | _ => Option.none

/-- Conversion attempted by DashboardData._update_numeric (dashboard.py lines
103-110): None is rejected before conversion, and float(value) either
succeeds (numbers, bools, numeric strings) or its TypeError/ValueError is
caught; both rejections are Option.none. -/
def pyFloat : PyVal → Option ℚ
  | PyVal.none => Option.none
  | PyVal.num q => some q
  | PyVal.bool b => some (if b then 1 else 0)
  | PyVal.str s => str_to_float s

/-- Models the Python builtin str as used by DashboardData._update_string;
the claims only exercise string-valued inputs here, so the rendering of
numbers is the Lean rational rendering rather than Python repr. -/
def pyStr : PyVal → String
  | PyVal.none => "None"
  | PyVal.str s => s
  | PyVal.bool b => if b then "True" else "False"
  | PyVal.num q => toString q

/-- Shallow embedding of DashboardData._to_bool (dashboard.py lines 92-101):
bools pass through, numbers are compared with zero, strings are stripped,
lowercased and matched against the four truthy words, anything else yields
the fallback. -/
def to_bool (value : PyVal) (dflt : Bool) : Bool :=
  match value with
  | PyVal.bool b => b
  | PyVal.num q => decide (q ≠ 0)
  | PyVal.str s => ["true", "1", "yes", "on"].contains s.trim.toLower
  | PyVal.none => dflt

/-- Shallow embedding of DashboardData._update_numeric (dashboard.py lines
103-123): returns the (possibly updated) attribute and whether it changed.
Rationals model finite floats, so the non-finite elif branches of the source
are outside the model. -/
def updateNumeric (current : ℚ) (value : PyVal) (tolerance : ℚ) : ℚ × Bool :=
  match pyFloat value with
  | Option.none => (current, false)
  | some new_value =>
      if |current - new_value| ≤ tolerance then (current, false)
      else (new_value, true)

/-- Shallow embedding of DashboardData._update_string (dashboard.py lines
125-134). -/
def updateString (current : String) (value : PyVal) : String × Bool :=
  if value = PyVal.none then (current, false)
  else
    let new_value := pyStr value
    if current = new_value then (current, false) else (new_value, true)

/-- One boolean fault entry of update_from_dict (dashboard.py lines 176-185):
run only when the key is present; the value goes through _to_bool with the
current flag as fallback and the flag changes on inequality. -/
def update_bool (current : Bool) (value : Option PyVal) : Bool × Bool :=
  match value with
  | Option.none => (current, false)
  | some w =>
      let new_value := to_bool w current
      if current = new_value then (current, false) else (new_value, true)

/-- Pump sub-dictionary as read by update_from_dict.  target_rate and
flow_rate are pump.get results, so an absent key and an explicit None are the
same PyVal.none; pump_state is read with the current value as default, so key
absence (Option.none here) is distinguished from an explicit None value. -/
structure PumpSection where
  target_rate : PyVal
  flow_rate : PyVal
  pump_state : Option PyVal
  deriving DecidableEq, Repr

/-- Solar sub-dictionary as read by update_from_dict. -/
structure SolarSection where
  battery_voltage : PyVal
  battery_percentage : PyVal
  panel_power : PyVal
  battery_ah : PyVal
  deriving DecidableEq, Repr

/-- Tank sub-dictionary as read by update_from_dict. -/
structure TankSection where
  tank_level_mm : PyVal
  tank_level_percent : PyVal
  deriving DecidableEq, Repr

/-- Skid sub-dictionary as read by update_from_dict. -/
structure SkidSection where
  skid_flow : PyVal
  skid_pressure : PyVal
  deriving DecidableEq, Repr

/-- System sub-dictionary: the status key is read with the current value as
default. -/
structure SystemSection where
  status : Option PyVal
  deriving DecidableEq, Repr

/-- Faults sub-dictionary: each key is guarded by a membership test, so
Option.none models key absence. -/
structure FaultsSection where
  hh_pressure : Option PyVal
  ll_tank_level : Option PyVal
  deriving DecidableEq, Repr

/-- Update dictionary handed to DashboardData.update_from_dict: each
top-level section is present or absent. -/
structure UpdateDict where
  pump : Option PumpSection
  pump2 : Option PumpSection
  solar : Option SolarSection
  tank : Option TankSection
  skid : Option SkidSection
  system : Option SystemSection
  faults : Option FaultsSection
  deriving DecidableEq, Repr

/-- Fields of DashboardData (dashboard.py lines 17-53).  The datetime
timestamp is modelled as a natural number supplied by the caller. -/
@[ext]
structure DashboardData where
  target_rate : ℚ
  flow_rate : ℚ
  pump_state : String
  pump2_target_rate : ℚ
  pump2_flow_rate : ℚ
  pump2_pump_state : String
  battery_voltage : ℚ
  battery_percentage : ℚ
  panel_power : ℚ
  battery_ah : ℚ
  tank_level_mm : ℚ
  tank_level_percent : ℚ
  skid_flow : ℚ
  skid_pressure : ℚ
  timestamp : Nat
  system_status : String
  hh_pressure : Bool
  ll_tank_level : Bool
  deriving DecidableEq, Repr

/-- Default values assigned by DashboardData.__init__. -/
def initData : DashboardData :=
  { target_rate := 0, flow_rate := 0, pump_state := "standby",
    pump2_target_rate := 0, pump2_flow_rate := 0, pump2_pump_state := "standby",
    battery_voltage := 0, battery_percentage := 0, panel_power := 0, battery_ah := 0,
    tank_level_mm := 0, tank_level_percent := 0,
    skid_flow := 0, skid_pressure := 0,
    timestamp := 0, system_status := "running",
    hh_pressure := false, ll_tank_level := false }

/-- Models dict.get with a default, as used for the pump_state and status
keys. -/
def getOr (o : Option PyVal) (dflt : PyVal) : PyVal :=
  match o with
  | some v => v
  | Option.none => dflt

/-- Presence guard for one section of the update dictionary: when the section
is absent the attribute keeps its value and contributes no change. -/
def inSection {α γ : Type} (o : Option α) (c : γ) (f : α → γ × Bool) : γ × Bool :=
  match o with
  | some x => f x
  | Option.none => (c, false)

/-- Shallow embedding of DashboardData.update_from_dict (dashboard.py lines
136-189).  The source mutates the attributes one by one, accumulating
changed with a non-short-circuiting or; the attributes touched are pairwise
distinct, so the update is presented field-wise here.  The timestamp is set
to the update time exactly when changed is true. -/
def update_from_dict (d : DashboardData) (now : Nat) (u : UpdateDict) : DashboardData × Bool :=
  let rTR := inSection u.pump d.target_rate
    (fun p => updateNumeric d.target_rate p.target_rate (5/100))
  let rFR := inSection u.pump d.flow_rate
    (fun p => updateNumeric d.flow_rate p.flow_rate (5/100))
  let rPS := inSection u.pump d.pump_state
    (fun p => updateString d.pump_state (getOr p.pump_state (PyVal.str d.pump_state)))
  let r2TR := inSection u.pump2 d.pump2_target_rate
    (fun p => updateNumeric d.pump2_target_rate p.target_rate (5/100))
  let r2FR := inSection u.pump2 d.pump2_flow_rate
    (fun p => updateNumeric d.pump2_flow_rate p.flow_rate (5/100))
  let r2PS := inSection u.pump2 d.pump2_pump_state
    (fun p => updateString d.pump2_pump_state (getOr p.pump_state (PyVal.str d.pump2_pump_state)))
  let rBV := inSection u.solar d.battery_voltage
    (fun s => updateNumeric d.battery_voltage s.battery_voltage (1/10))
  let rBP := inSection u.solar d.battery_percentage
    (fun s => updateNumeric d.battery_percentage s.battery_percentage (1/5))
  let rPP := inSection u.solar d.panel_power
    (fun s => updateNumeric d.panel_power s.panel_power (1/10))
  let rAH := inSection u.solar d.battery_ah
    (fun s => updateNumeric d.battery_ah s.battery_ah (1/10))
  let rTM := inSection u.tank d.tank_level_mm
    (fun t => updateNumeric d.tank_level_mm t.tank_level_mm 1)
  let rTP := inSection u.tank d.tank_level_percent
    (fun t => updateNumeric d.tank_level_percent t.tank_level_percent 1)
  let rSF := inSection u.skid d.skid_flow
    (fun s => updateNumeric d.skid_flow s.skid_flow (1/10))
  let rSP := inSection u.skid d.skid_pressure
    (fun s => updateNumeric d.skid_pressure s.skid_pressure 10)
  let rSS := inSection u.system d.system_status
    (fun s => updateString d.system_status (getOr s.status (PyVal.str d.system_status)))
  let rHH := inSection u.faults d.hh_pressure
    (fun f => update_bool d.hh_pressure f.hh_pressure)
  let rLL := inSection u.faults d.ll_tank_level
    (fun f => update_bool d.ll_tank_level f.ll_tank_level)
  let changed := rTR.2 || rFR.2 || rPS.2 || r2TR.2 || r2FR.2 || r2PS.2 ||
    rBV.2 || rBP.2 || rPP.2 || rAH.2 || rTM.2 || rTP.2 || rSF.2 || rSP.2 ||
    rSS.2 || rHH.2 || rLL.2
  ({ target_rate := rTR.1, flow_rate := rFR.1, pump_state := rPS.1,
     pump2_target_rate := r2TR.1, pump2_flow_rate := r2FR.1, pump2_pump_state := r2PS.1,
     battery_voltage := rBV.1, battery_percentage := rBP.1,
     panel_power := rPP.1, battery_ah := rAH.1,
     tank_level_mm := rTM.1, tank_level_percent := rTP.1,
     skid_flow := rSF.1, skid_pressure := rSP.1,
     timestamp := if changed then now else d.timestamp,
     system_status := rSS.1,
     hh_pressure := rHH.1, ll_tank_level := rLL.1 }, changed)

/-- Pump sub-object of DashboardData.to_dict. -/
structure PumpDict where
  target_rate : ℚ
  flow_rate : ℚ
  pump_state : String
  deriving DecidableEq, Repr

/-- Solar sub-object of DashboardData.to_dict. -/
structure SolarDict where
  battery_voltage : ℚ
  battery_percentage : ℚ
  panel_power : ℚ
  battery_ah : ℚ
  deriving DecidableEq, Repr

/-- Tank sub-object of DashboardData.to_dict. -/
structure TankDict where
  tank_level_mm : ℚ
  tank_level_percent : ℚ
  deriving DecidableEq, Repr

/-- Skid sub-object of DashboardData.to_dict. -/
structure SkidDict where
  skid_flow : ℚ
  skid_pressure : ℚ
  deriving DecidableEq, Repr

/-- System sub-object of DashboardData.to_dict. -/
structure SystemDict where
  timestamp : Nat
  status : String
  deriving DecidableEq, Repr

/-- Faults sub-object of DashboardData.to_dict. -/
structure FaultsDict where
  hh_pressure : Bool
  ll_tank_level : Bool
  deriving DecidableEq, Repr

/-- Full snapshot payload produced by DashboardData.to_dict (dashboard.py
lines 55-90). -/
structure SnapshotDict where
  pump : PumpDict
  pump2 : PumpDict
  solar : SolarDict
  tank : TankDict
  skid : SkidDict
  system : SystemDict
  faults : FaultsDict
  deriving DecidableEq, Repr

/-- Shallow embedding of DashboardData.to_dict. -/
def to_dict (d : DashboardData) : SnapshotDict :=
  { pump := { target_rate := d.target_rate, flow_rate := d.flow_rate,
              pump_state := d.pump_state },
    pump2 := { target_rate := d.pump2_target_rate, flow_rate := d.pump2_flow_rate,
               pump_state := d.pump2_pump_state },
    solar := { battery_voltage := d.battery_voltage,
               battery_percentage := d.battery_percentage,
               panel_power := d.panel_power, battery_ah := d.battery_ah },
    tank := { tank_level_mm := d.tank_level_mm,
              tank_level_percent := d.tank_level_percent },
    skid := { skid_flow := d.skid_flow, skid_pressure := d.skid_pressure },
    system := { timestamp := d.timestamp, status := d.system_status },
    faults := { hh_pressure := d.hh_pressure, ll_tank_level := d.ll_tank_level } }

/-- Events pushed over the socket connection that the claims observe. -/
inductive SocketEvent
  | data_update (payload : SnapshotDict)
  deriving DecidableEq, Repr

/-- Shallow embedding of the connect handler handle_connect (dashboard.py
lines 244-252): the client id is added to the connected set and the full
current snapshot is emitted to that client as one data_update, with no
condition on whether anything changed since the last broadcast. -/
def handle_connect (connected_clients : List Nat) (sid : Nat) (d : DashboardData) :
    List Nat × List SocketEvent :=
  let clients := if sid ∈ connected_clients then connected_clients
    else sid :: connected_clients
  (clients, [SocketEvent.data_update (to_dict d)])

end Napd

namespace Napd

lemma check_faults_hh_mono (st : AppState) (p1 p2 : Option String)
    (h : st.hh_pressure_active = true) :
    (check_faults st p1 p2).hh_pressure_active = true := by
  unfold check_faults
  split_ifs <;> simp [h]

lemma check_faults_ll_mono (st : AppState) (p1 p2 : Option String)
    (h : st.ll_tank_level_active = true) :
    (check_faults st p1 p2).ll_tank_level_active = true := by
  unfold check_faults
  split_ifs <;> simp [h]

lemma observe_run_hh_mono :
    ∀ (obs : List (Option String × Option String)) (st : AppState),
      st.hh_pressure_active = true → (observe_run st obs).hh_pressure_active = true := by
  intro obs
  induction obs with
  | nil => intro st h; exact h
  | cons p rest ih =>
      intro st h
      exact ih _ (check_faults_hh_mono st p.1 p.2 h)

lemma observe_run_ll_mono :
    ∀ (obs : List (Option String × Option String)) (st : AppState),
      st.ll_tank_level_active = true → (observe_run st obs).ll_tank_level_active = true := by
  intro obs
  induction obs with
  | nil => intro st h; exact h
  | cons p rest ih =>
      intro st h
      exact ih _ (check_faults_ll_mono st p.1 p.2 h)

/-- C1: fault flags are sticky.  Once either flag is true it stays true under
every further sequence of check_faults calls, whatever status strings are
observed; and the explicit clear in the selector-button callback (taken
exactly while a fault is active) resets both flags in the same call. -/
theorem C1_fault_flags_sticky :
    ∀ (st : AppState) (obs : List (Option String × Option String)),
      (st.hh_pressure_active = true → (observe_run st obs).hh_pressure_active = true) ∧
      (st.ll_tank_level_active = true → (observe_run st obs).ll_tank_level_active = true) ∧
      ((st.hh_pressure_active = true ∨ st.ll_tank_level_active = true) →
        (selector_button_callback st).hh_pressure_active = false ∧
        (selector_button_callback st).ll_tank_level_active = false) := by
  intro st obs
  refine ⟨fun h => observe_run_hh_mono obs st h, fun h => observe_run_ll_mono obs st h, ?_⟩
  intro h
  unfold selector_button_callback
  rcases h with h | h <;> simp [h]

/-- Witness for C1 at a concrete state and observation sequence. -/
theorem C1_fault_flags_sticky_witness :
    (observe_run ⟨true, false, 1, false⟩
      [(some "clean", Option.none), (Option.none, Option.none)]).hh_pressure_active = true ∧
    (selector_button_callback ⟨true, true, 2, false⟩).hh_pressure_active = false ∧
    (selector_button_callback ⟨true, true, 2, false⟩).ll_tank_level_active = false :=
  ⟨(C1_fault_flags_sticky ⟨true, false, 1, false⟩ _).1 rfl,
   ((C1_fault_flags_sticky ⟨true, true, 2, false⟩ []).2.2 (Or.inl rfl)).1,
   ((C1_fault_flags_sticky ⟨true, true, 2, false⟩ []).2.2 (Or.inl rfl)).2⟩

/-- C2 counterexample: a single check_faults call in which pump 1 reports the
pressure-high-high code and pump 2 reports the tank-low-low code does NOT set
the low-low-tank-level flag, because the tank test is in an elif branch. -/
theorem C2_counterexample :
    (check_faults ⟨false, false, 1, false⟩
      (some "pressure_high_high_level")
      (some "tank_level_low_low_level")).ll_tank_level_active = false := by
  decide

/-- C2 amended: on each call, the high-high-pressure flag is set true when any
provided status equals the pressure code; the low-low-tank-level flag is set
true only when no status equals the pressure code and some status equals the
tank code; neither flag is ever set false, and nothing else changes. -/
theorem C2_observe_characterisation :
    ∀ (st : AppState) (p1 p2 : Option String),
      (check_faults st p1 p2).hh_pressure_active =
        (st.hh_pressure_active ||
          decide (p1 = some "pressure_high_high_level" ∨ p2 = some "pressure_high_high_level")) ∧
      (check_faults st p1 p2).ll_tank_level_active =
        (st.ll_tank_level_active ||
          (!(decide (p1 = some "pressure_high_high_level" ∨ p2 = some "pressure_high_high_level")) &&
            decide (p1 = some "tank_level_low_low_level" ∨ p2 = some "tank_level_low_low_level"))) ∧
      (check_faults st p1 p2).selected_pump = st.selected_pump ∧
      (check_faults st p1 p2).start_first_callback = st.start_first_callback := by
  intro st p1 p2
  unfold check_faults
  split_ifs <;> simp_all

/-- C3: a selector-button edge while any fault flag is active clears both
flags and leaves the selection unchanged; the same edge while no fault is
active toggles the selection strictly between pumps 1 and 2 and leaves both
fault flags unchanged. -/
theorem C3_selector_edge :
    ∀ st : AppState,
      ((st.hh_pressure_active = true ∨ st.ll_tank_level_active = true) →
        (selector_button_callback st).hh_pressure_active = false ∧
        (selector_button_callback st).ll_tank_level_active = false ∧
        (selector_button_callback st).selected_pump = st.selected_pump) ∧
      (st.hh_pressure_active = false → st.ll_tank_level_active = false →
        (st.selected_pump = 1 → (selector_button_callback st).selected_pump = 2) ∧
        (st.selected_pump = 2 → (selector_button_callback st).selected_pump = 1) ∧
        ((st.selected_pump = 1 ∨ st.selected_pump = 2) →
          (selector_button_callback st).selected_pump ≠ st.selected_pump) ∧
        (selector_button_callback st).hh_pressure_active = st.hh_pressure_active ∧
        (selector_button_callback st).ll_tank_level_active = st.ll_tank_level_active) := by
  intro st
  constructor
  · intro h
    unfold selector_button_callback
    rcases h with h | h <;> simp [h]
  · intro h1 h2
    unfold selector_button_callback
    split_ifs with hc
    · rw [h1, h2] at hc
      exact absurd hc (by simp)
    · refine ⟨?_, ?_, ?_, rfl, rfl⟩
      · intro hs; simp [hs, toggleSelectedPump]
      · intro hs; simp [hs, toggleSelectedPump]
      · intro hmem
        rcases hmem with hs | hs <;> simp [hs, toggleSelectedPump]

/-- Witness for C3 at two concrete states, one per branch. -/
theorem C3_selector_edge_witness :
    (selector_button_callback ⟨true, false, 2, false⟩).selected_pump = 2 ∧
    (selector_button_callback ⟨false, false, 1, false⟩).selected_pump = 2 :=
  ⟨((C3_selector_edge ⟨true, false, 2, false⟩).1 (Or.inl rfl)).2.2,
   ((C3_selector_edge ⟨false, false, 1, false⟩).2 rfl rfl).1 rfl⟩

lemma event_step_flag (st : AppState) (e : PulseEvent) :
    ((event_step st e).1).start_first_callback =
      (st.start_first_callback || decide (e = PulseEvent.startEdge)) := by
  cases e with
  | selectorEdge =>
      simp only [event_step]
      unfold selector_button_callback
      split_ifs <;> simp
  | startEdge =>
      simp only [event_step]
      unfold start_pump_callback
      split_ifs with h <;> simp_all
  | stopEdge =>
      simp only [event_step]
      unfold stop_pump_callback
      simp

lemma event_step_sel_mem (st : AppState) (e : PulseEvent)
    (h : st.selected_pump = 1 ∨ st.selected_pump = 2) :
    ((event_step st e).1).selected_pump = 1 ∨ ((event_step st e).1).selected_pump = 2 := by
  cases e with
  | selectorEdge =>
      simp only [event_step]
      unfold selector_button_callback toggleSelectedPump
      split_ifs <;> simp_all
  | startEdge =>
      simp only [event_step]
      unfold start_pump_callback
      split_ifs <;> simp_all
  | stopEdge =>
      simpa only [event_step, stop_pump_callback] using h

lemma run_state_flag :
    ∀ (evs : List PulseEvent) (st : AppState),
      (run_state st evs).start_first_callback =
        (st.start_first_callback || decide (PulseEvent.startEdge ∈ evs)) := by
  intro evs
  induction evs with
  | nil => intro st; simp [run_state]
  | cons e rest ih =>
      intro st
      rw [run_state, ih, event_step_flag]
      by_cases he : e = PulseEvent.startEdge
      · subst he; simp [List.mem_cons]
      · simp [List.mem_cons, he, Ne.symm he]

lemma run_state_sel_mem :
    ∀ (evs : List PulseEvent) (st : AppState),
      (st.selected_pump = 1 ∨ st.selected_pump = 2) →
      ((run_state st evs).selected_pump = 1 ∨ (run_state st evs).selected_pump = 2) := by
  intro evs
  induction evs with
  | nil => intro st h; exact h
  | cons e rest ih =>
      intro st h
      exact ih _ (event_step_sel_mem st e h)

lemma update_pump_state_tag_sel (sel code : Nat) (h : sel = 1 ∨ sel = 2) :
    update_pump_state_tag sel code = [(sel, code)] := by
  rcases h with h | h <;> simp [update_pump_state_tag, h]

/-- C6: starting from process start (guard flag false, selection valid), a
start edge arriving after a prefix of edges containing no earlier start edge
produces no StateWrite; a start edge after a prefix containing an earlier
start edge produces exactly the write of running code 2 to the pump selected
at that moment; and a stop edge always produces exactly the write of standby
code 0 to the currently selected pump. -/
theorem C6_start_stop_edges :
    ∀ (st : AppState) (pre : List PulseEvent),
      st.start_first_callback = false →
      (st.selected_pump = 1 ∨ st.selected_pump = 2) →
      (PulseEvent.startEdge ∉ pre →
        (event_step (run_state st pre) PulseEvent.startEdge).2 = []) ∧
      (PulseEvent.startEdge ∈ pre →
        (event_step (run_state st pre) PulseEvent.startEdge).2 =
          [((run_state st pre).selected_pump, 2)]) ∧
      (event_step (run_state st pre) PulseEvent.stopEdge).2 =
        [((run_state st pre).selected_pump, 0)] := by
  intro st pre hflag hsel
  have hmem := run_state_sel_mem pre st hsel
  have hfl := run_state_flag pre st
  rw [hflag] at hfl
  refine ⟨?_, ?_, ?_⟩
  · intro hni
    have : (run_state st pre).start_first_callback = false := by
      rw [hfl]; simp [hni]
    simp only [event_step]
    unfold start_pump_callback
    rw [if_pos this]
  · intro hin
    have : (run_state st pre).start_first_callback = true := by
      rw [hfl]; simp [hin]
    simp only [event_step]
    unfold start_pump_callback
    rw [if_neg (by simp [this])]
    exact update_pump_state_tag_sel _ 2 hmem
  · simp only [event_step]
    unfold stop_pump_callback
    exact update_pump_state_tag_sel _ 0 hmem

/-- Witness for C6: from the initial state, the first start edge writes
nothing, the second writes (1, 2), and a stop edge then writes (1, 0). -/
theorem C6_start_stop_edges_witness :
    (event_step (run_state ⟨false, false, 1, false⟩ []) PulseEvent.startEdge).2 = [] ∧
    (event_step (run_state ⟨false, false, 1, false⟩ [PulseEvent.startEdge]) PulseEvent.startEdge).2 = [(1, 2)] ∧
    (event_step (run_state ⟨false, false, 1, false⟩ [PulseEvent.startEdge]) PulseEvent.stopEdge).2 = [(1, 0)] :=
  ⟨(C6_start_stop_edges ⟨false, false, 1, false⟩ [] rfl (Or.inl rfl)).1 (by simp),
   (C6_start_stop_edges ⟨false, false, 1, false⟩ [PulseEvent.startEdge] rfl (Or.inl rfl)).2.1 (by simp),
   (C6_start_stop_edges ⟨false, false, 1, false⟩ [PulseEvent.startEdge] rfl (Or.inl rfl)).2.2⟩

/-- C5: one target-rate step.  A present reading strictly inside the one
percent band around the stored previous reading is suppressed: no tag write
and the stored reading is unchanged.  Outside the band, the step stores the
new reading and writes round2 of reading divided by system voltage times 100
to the selected pump, where an absent or zero voltage tag defaults to 25;
reading 12.5 at voltage 25 yields exactly 50. -/
theorem C5_target_rate :
    ∀ (l a : ℚ) (v : Option ℚ) (sel : Nat),
      (l * (99/100) < a → a < l * (101/100) →
        update_target_rate (some l) sel (some a) v = Except.ok (some l, Option.none)) ∧
      (¬ (l * (99/100) < a ∧ a < l * (101/100)) → (sel = 1 ∨ sel = 2) →
        update_target_rate (some l) sel (some a) v =
          Except.ok (some a, some (sel, round2 (a / defaultVoltage v * 100)))) ∧
      defaultVoltage Option.none = 25 ∧
      defaultVoltage (some 0) = 25 ∧
      update_target_rate (some 12) 1 (some (25/2)) (some 25) =
        Except.ok (some (25/2), some (1, 50)) := by
  intro l a v sel
  refine ⟨?_, ?_, rfl, by norm_num [defaultVoltage], ?_⟩
  · intro h1 h2
    show (if l * (99/100) < a ∧ a < l * (101/100) then
        Except.ok (some l, Option.none)
      else
        let w := defaultVoltage v
        let target_rate := round2 (a / w * 100)
        if sel = 1 then Except.ok (some a, some (1, target_rate))
        else if sel = 2 then Except.ok (some a, some (2, target_rate))
        else Except.ok (some a, Option.none)) = Except.ok (some l, Option.none)
    rw [if_pos ⟨h1, h2⟩]
  · intro h hsel
    show (if l * (99/100) < a ∧ a < l * (101/100) then
        Except.ok (some l, Option.none)
      else
        let w := defaultVoltage v
        let target_rate := round2 (a / w * 100)
        if sel = 1 then Except.ok (some a, some (1, target_rate))
        else if sel = 2 then Except.ok (some a, some (2, target_rate))
        else Except.ok (some a, Option.none)) =
        Except.ok (some a, some (sel, round2 (a / defaultVoltage v * 100)))
    rw [if_neg h]
    rcases hsel with hs | hs <;> simp [hs]
  · have h50 : round2 ((25 : ℚ)/2 / defaultVoltage (some 25) * 100) = 50 := by
      norm_num [defaultVoltage, round2, roundHalfEven]
    have hband : ¬ ((12 : ℚ) * (99/100) < 25/2 ∧ (25/2 : ℚ) < 12 * (101/100)) := by
      intro hc
      exact absurd hc.2 (by norm_num)
    show (if (12 : ℚ) * (99/100) < 25/2 ∧ (25/2 : ℚ) < 12 * (101/100) then
        Except.ok (some (12 : ℚ), Option.none)
      else
        let w := defaultVoltage (some 25)
        let target_rate := round2 ((25 : ℚ)/2 / w * 100)
        if (1 : Nat) = 1 then Except.ok (some ((25 : ℚ)/2), some (1, target_rate))
        else if (1 : Nat) = 2 then Except.ok (some ((25 : ℚ)/2), some (2, target_rate))
        else Except.ok (some ((25 : ℚ)/2), Option.none)) =
        Except.ok (some ((25 : ℚ)/2), some (1, 50))
    rw [if_neg hband]
    simp [h50]

/-- Witness for C5: reading 12.1 against stored 12.0 is suppressed; reading
13.0 against stored 12.0 is not and produces the computed write. -/
theorem C5_target_rate_witness :
    update_target_rate (some 12) 1 (some (121/10)) (some 25) =
      Except.ok (some 12, Option.none) ∧
    update_target_rate (some 12) 1 (some 13) (some 25) =
      Except.ok (some 13, some (1, round2 (13 / defaultVoltage (some 25) * 100))) :=
  ⟨(C5_target_rate 12 (121/10) (some 25) 1).1 (by norm_num) (by norm_num),
   (C5_target_rate 12 13 (some 25) 1).2.1
     (fun hc => absurd hc.2 (by norm_num)) (Or.inl rfl)⟩

/-- C8: evaluation at the failing inputs.  A missing potentiometer reading
(ai_input None) or a missing stored previous reading (last_ai_input None)
makes the target-rate step raise TypeError, and main_loop, having no
exception handler, aborts before update_dashboard_data and update_pump_leds
run. -/
theorem C8_missing_reading_aborts_tick :
    main_loop (some 12) 1 Option.none (some 25) = Except.error "TypeError" ∧
    main_loop Option.none 1 (some 12) (some 25) = Except.error "TypeError" :=
  ⟨rfl, rfl⟩

/-- C7: solar aggregation.  Zero configured controllers, or controllers none
of which report, aggregate to all zeros; battery voltage and percentage are
the arithmetic mean over the reporting controllers; remaining amp-hours are
summed; panel power is clamped to be nonnegative; voltages 24 and 26 average
to 25 and amp-hours 50 and 70 sum to 120. -/
theorem C7_solar_aggregation :
    aggregate_solar [] = ⟨0, 0, 0, 0⟩ ∧
    (∀ cs : List SolarReading,
      cs.filterMap SolarReading.b_voltage ≠ [] →
        (aggregate_solar cs).battery_voltage =
          (cs.filterMap SolarReading.b_voltage).sum /
            (cs.filterMap SolarReading.b_voltage).length) ∧
    (∀ cs : List SolarReading,
      cs.filterMap SolarReading.b_percent ≠ [] →
        (aggregate_solar cs).battery_percentage =
          (cs.filterMap SolarReading.b_percent).sum /
            (cs.filterMap SolarReading.b_percent).length) ∧
    (∀ cs : List SolarReading,
      cs.filterMap SolarReading.remaining_ah ≠ [] →
        (aggregate_solar cs).battery_ah =
          (cs.filterMap SolarReading.remaining_ah).sum) ∧
    (∀ cs : List SolarReading,
      (∀ c ∈ cs, c.b_voltage = Option.none ∧ c.b_percent = Option.none ∧
        c.panel_voltage = Option.none ∧ c.remaining_ah = Option.none) →
      aggregate_solar cs = ⟨0, 0, 0, 0⟩) ∧
    (∀ cs : List SolarReading, 0 ≤ (aggregate_solar cs).panel_power) ∧
    (aggregate_solar
        [⟨some 24, Option.none, Option.none, some 50⟩,
         ⟨some 26, Option.none, Option.none, some 70⟩]).battery_voltage = 25 ∧
    (aggregate_solar
        [⟨some 24, Option.none, Option.none, some 50⟩,
         ⟨some 26, Option.none, Option.none, some 70⟩]).battery_ah = 120 := by
  refine ⟨rfl, ?_, ?_, ?_, ?_, ?_, ?_, ?_⟩
  · intro cs h
    simp [aggregate_solar, h]
  · intro cs h
    simp [aggregate_solar, h]
  · intro cs h
    simp [aggregate_solar, h]
  · intro cs h
    have hv : cs.filterMap SolarReading.b_voltage = [] :=
      List.filterMap_eq_nil_iff.mpr (fun c hc => (h c hc).1)
    have hp : cs.filterMap SolarReading.b_percent = [] :=
      List.filterMap_eq_nil_iff.mpr (fun c hc => (h c hc).2.1)
    have hpv : cs.filterMap SolarReading.panel_voltage = [] :=
      List.filterMap_eq_nil_iff.mpr (fun c hc => (h c hc).2.2.1)
    have hah : cs.filterMap SolarReading.remaining_ah = [] :=
      List.filterMap_eq_nil_iff.mpr (fun c hc => (h c hc).2.2.2)
    simp [aggregate_solar, hv, hp, hpv, hah]
  · intro cs
    simp only [aggregate_solar]
    split_ifs with h1 h2
    · exact le_refl 0
    · exact not_lt.mp h2
    · exact le_refl 0
  · norm_num [aggregate_solar, List.filterMap_cons, List.sum_cons]
    simp
  · norm_num [aggregate_solar, List.filterMap_cons, List.sum_cons]
    simp

/-- Witness for C7 at a concrete pair of controllers, applying the mean and
sum clauses. -/
theorem C7_solar_aggregation_witness :
    (aggregate_solar
        [⟨some 24, Option.none, Option.none, some 50⟩,
         ⟨some 26, Option.none, Option.none, some 70⟩]).battery_ah =
      ([50, 70] : List ℚ).sum :=
  C7_solar_aggregation.2.2.2.1
    [⟨some 24, Option.none, Option.none, some 50⟩,
     ⟨some 26, Option.none, Option.none, some 70⟩] (by simp)

/-- C9: every new subscriber connection immediately receives exactly one
data_update event carrying the full current snapshot, with all seven
sub-objects populated from the current data, unconditionally (there is no
change test on this path). -/
theorem C9_connect_sends_snapshot :
    ∀ (clients : List Nat) (sid : Nat) (d : DashboardData),
      (handle_connect clients sid d).2 = [SocketEvent.data_update (to_dict d)] ∧
      (to_dict d).pump = ⟨d.target_rate, d.flow_rate, d.pump_state⟩ ∧
      (to_dict d).pump2 = ⟨d.pump2_target_rate, d.pump2_flow_rate, d.pump2_pump_state⟩ ∧
      (to_dict d).solar =
        ⟨d.battery_voltage, d.battery_percentage, d.panel_power, d.battery_ah⟩ ∧
      (to_dict d).tank = ⟨d.tank_level_mm, d.tank_level_percent⟩ ∧
      (to_dict d).skid = ⟨d.skid_flow, d.skid_pressure⟩ ∧
      (to_dict d).system = ⟨d.timestamp, d.system_status⟩ ∧
      (to_dict d).faults = ⟨d.hh_pressure, d.ll_tank_level⟩ :=
  fun _ _ _ => ⟨rfl, rfl, rfl, rfl, rfl, rfl, rfl, rfl⟩

lemma updateNumeric_none_eq (c : ℚ) (v : PyVal) (tol : ℚ) (h : pyFloat v = Option.none) :
    updateNumeric c v tol = (c, false) := by
  simp [updateNumeric, h]

lemma updateNumeric_fst_ne (c : ℚ) (v : PyVal) (tol : ℚ)
    (h : (updateNumeric c v tol).1 ≠ c) :
    ∃ q, pyFloat v = some q ∧ |c - q| > tol ∧ (updateNumeric c v tol).1 = q := by
  rcases hq : pyFloat v with _ | q
  · exact absurd (by simp [updateNumeric, hq]) h
  · by_cases ht : |c - q| ≤ tol
    · exact absurd (by simp [updateNumeric, hq, ht]) h
    · exact ⟨q, rfl, lt_of_not_le ht, by simp [updateNumeric, hq, ht]⟩

lemma updateNumeric_snd_iff (c : ℚ) (v : PyVal) (tol : ℚ) (htol : 0 ≤ tol) :
    ((updateNumeric c v tol).2 = true ↔ (updateNumeric c v tol).1 ≠ c) := by
  rcases hq : pyFloat v with _ | q
  · simp [updateNumeric, hq]
  · by_cases ht : |c - q| ≤ tol
    · simp [updateNumeric, hq, ht]
    · have hne : q ≠ c := by
        intro he
        subst he
        exact ht (by simpa using htol)
      simp [updateNumeric, hq, ht, hne]

lemma updateString_eval (c : String) (v : PyVal) (hv : v ≠ PyVal.none) :
    updateString c v = if c = pyStr v then (c, false) else (pyStr v, true) := by
  unfold updateString
  rw [if_neg hv]

lemma updateString_self (old : String) : updateString old (PyVal.str old) = (old, false) := by
  rw [updateString_eval _ _ (fun hx => PyVal.noConfusion hx),
    if_pos (show old = pyStr (PyVal.str old) from rfl)]

lemma updateString_fst_ne (c : String) (v : PyVal)
    (h : (updateString c v).1 ≠ c) :
    v ≠ PyVal.none ∧ (updateString c v).1 = pyStr v ∧ pyStr v ≠ c := by
  by_cases hn : v = PyVal.none
  · subst hn
    exact absurd rfl h
  · rw [updateString_eval _ _ hn] at h
    by_cases hcv : c = pyStr v
    · rw [if_pos hcv] at h
      exact absurd rfl h
    · rw [if_neg hcv] at h
      refine ⟨hn, ?_, fun he => hcv he.symm⟩
      rw [updateString_eval _ _ hn, if_neg hcv]

lemma updateString_snd_iff (c : String) (v : PyVal) :
    ((updateString c v).2 = true ↔ (updateString c v).1 ≠ c) := by
  by_cases hn : v = PyVal.none
  · subst hn
    show ((c, false).2 = true ↔ (c, false).1 ≠ c)
    simp
  · rw [updateString_eval _ _ hn]
    by_cases hcv : c = pyStr v
    · rw [if_pos hcv]
      simp
    · rw [if_neg hcv]
      simpa using fun he => hcv he.symm

lemma update_bool_eval (c : Bool) (w : PyVal) :
    update_bool c (some w) = if c = to_bool w c then (c, false) else (to_bool w c, true) := rfl

lemma update_bool_fst_ne (c : Bool) (v : Option PyVal)
    (h : (update_bool c v).1 ≠ c) :
    ∃ w, v = some w ∧ (update_bool c v).1 = to_bool w c ∧ to_bool w c ≠ c := by
  cases v with
  | none => exact absurd rfl h
  | some w =>
      rw [update_bool_eval] at h
      by_cases hcv : c = to_bool w c
      · rw [if_pos hcv] at h
        exact absurd rfl h
      · rw [if_neg hcv] at h
        exact ⟨w, rfl, by rw [update_bool_eval, if_neg hcv], fun he => hcv he.symm⟩

lemma update_bool_snd_iff (c : Bool) (v : Option PyVal) :
    ((update_bool c v).2 = true ↔ (update_bool c v).1 ≠ c) := by
  cases v with
  | none => simp [update_bool]
  | some w =>
      rw [update_bool_eval]
      by_cases hcv : c = to_bool w c
      · rw [if_pos hcv]
        simp
      · rw [if_neg hcv]
        simpa using fun he => hcv he.symm

lemma inSection_snd_iff {α γ : Type} (o : Option α) (c : γ) (f : α → γ × Bool)
    (hf : ∀ x, ((f x).2 = true ↔ (f x).1 ≠ c)) :
    ((inSection o c f).2 = true ↔ (inSection o c f).1 ≠ c) := by
  cases o with
  | none => simp [inSection]
  | some x => simpa [inSection] using hf x

lemma inSection_ne {α γ : Type} (o : Option α) (c : γ) (f : α → γ × Bool)
    (h : (inSection o c f).1 ≠ c) :
    ∃ x, o = some x ∧ inSection o c f = f x := by
  cases o with
  | none => exact absurd rfl h
  | some x => exact ⟨x, rfl, rfl⟩

lemma numeric_field_policy {α : Type} (old : ℚ) (o : Option α) (get : α → PyVal) (tol : ℚ)
    (h : (inSection o old (fun x => updateNumeric old (get x) tol)).1 ≠ old) :
    ∃ x q, o = some x ∧ pyFloat (get x) = some q ∧ |old - q| > tol ∧
      (inSection o old (fun x => updateNumeric old (get x) tol)).1 = q := by
  obtain ⟨x, hx, heq⟩ := inSection_ne _ _ _ h
  rw [heq] at h
  obtain ⟨q, hq, hgt, hres⟩ := updateNumeric_fst_ne _ _ _ h
  exact ⟨x, q, hx, hq, hgt, by rw [heq]; exact hres⟩

lemma string_field_policy {α : Type} (old : String) (o : Option α) (get : α → Option PyVal)
    (h : (inSection o old
        (fun x => updateString old (getOr (get x) (PyVal.str old)))).1 ≠ old) :
    ∃ x v, o = some x ∧ get x = some v ∧ v ≠ PyVal.none ∧
      (inSection o old
        (fun x => updateString old (getOr (get x) (PyVal.str old)))).1 = pyStr v ∧
      pyStr v ≠ old := by
  obtain ⟨x, hx, heq⟩ := inSection_ne _ _ _ h
  rw [heq] at h
  obtain ⟨hnn, hres, hneq⟩ := updateString_fst_ne _ _ h
  rcases hg : get x with _ | v
  · exfalso
    rw [hg] at hneq
    exact hneq rfl
  · rw [hg] at hnn hres hneq
    exact ⟨x, v, hx, hg, hnn, by rw [heq, hg]; exact hres, hneq⟩

lemma bool_field_policy {α : Type} (old : Bool) (o : Option α) (get : α → Option PyVal)
    (h : (inSection o old (fun x => update_bool old (get x))).1 ≠ old) :
    ∃ x w, o = some x ∧ get x = some w ∧
      (inSection o old (fun x => update_bool old (get x))).1 = to_bool w old ∧
      to_bool w old ≠ old := by
  obtain ⟨x, hx, heq⟩ := inSection_ne _ _ _ h
  rw [heq] at h
  obtain ⟨w, hw, hres, hneq⟩ := update_bool_fst_ne _ _ h
  exact ⟨x, w, hx, hw, by rw [heq]; exact hres, hneq⟩

lemma numeric_field_skip {α : Type} (old : ℚ) (o : Option α) (get : α → PyVal) (tol : ℚ)
    (x : α) (ho : o = some x) (hn : pyFloat (get x) = Option.none) :
    (inSection o old (fun y => updateNumeric old (get y) tol)).1 = old := by
  subst ho
  show (updateNumeric old (get x) tol).1 = old
  rw [updateNumeric_none_eq _ _ _ hn]

lemma timestamp_iff_aux (b : Bool) (t0 t1 : Nat) (h : t0 ≠ t1) :
    ((if b then t1 else t0) ≠ t0 ↔ b = true) := by
  cases b <;> simp [Ne.symm h]

lemma ite_true_eq (b : Bool) (t0 t1 : Nat) (hb : b = true) :
    (if b then t1 else t0) = t1 := by
  subst hb
  simp

lemma ite_false_eq (b : Bool) (t0 t1 : Nat) (hb : b = false) :
    (if b then t1 else t0) = t0 := by
  subst hb
  simp

/-- C4: one snapshot-update call.  The call returns true exactly when at
least one field changed; the timestamp is set to the update time exactly
when the call returns true (so, with time advanced since the stored stamp,
the timestamp advances if and only if some field changed); a numeric field
is overwritten only when a convertible input value differs from the old one
by more than its per-field tolerance, a string or boolean field only on
inequality of a present value, and a missing input value never overwrites
an existing value (the existential conclusions force a present section and
a present, convertible leaf). -/
theorem C4_update_policy :
    ∀ (d : DashboardData) (now : Nat) (u : UpdateDict),
      d.timestamp ≠ now →
      (((update_from_dict d now u).2 = true ↔
        ((update_from_dict d now u).1.target_rate ≠ d.target_rate ∨
         (update_from_dict d now u).1.flow_rate ≠ d.flow_rate ∨
         (update_from_dict d now u).1.pump_state ≠ d.pump_state ∨
         (update_from_dict d now u).1.pump2_target_rate ≠ d.pump2_target_rate ∨
         (update_from_dict d now u).1.pump2_flow_rate ≠ d.pump2_flow_rate ∨
         (update_from_dict d now u).1.pump2_pump_state ≠ d.pump2_pump_state ∨
         (update_from_dict d now u).1.battery_voltage ≠ d.battery_voltage ∨
         (update_from_dict d now u).1.battery_percentage ≠ d.battery_percentage ∨
         (update_from_dict d now u).1.panel_power ≠ d.panel_power ∨
         (update_from_dict d now u).1.battery_ah ≠ d.battery_ah ∨
         (update_from_dict d now u).1.tank_level_mm ≠ d.tank_level_mm ∨
         (update_from_dict d now u).1.tank_level_percent ≠ d.tank_level_percent ∨
         (update_from_dict d now u).1.skid_flow ≠ d.skid_flow ∨
         (update_from_dict d now u).1.skid_pressure ≠ d.skid_pressure ∨
         (update_from_dict d now u).1.system_status ≠ d.system_status ∨
         (update_from_dict d now u).1.hh_pressure ≠ d.hh_pressure ∨
         (update_from_dict d now u).1.ll_tank_level ≠ d.ll_tank_level)) ∧
      ((update_from_dict d now u).1.timestamp ≠ d.timestamp ↔ (update_from_dict d now u).2 = true) ∧
      ((update_from_dict d now u).2 = true → (update_from_dict d now u).1.timestamp = now) ∧
      ((update_from_dict d now u).2 = false → (update_from_dict d now u).1 = d) ∧
      ((update_from_dict d now u).1.target_rate ≠ d.target_rate →
        ∃ x q, u.pump = some x ∧ pyFloat x.target_rate = some q ∧
          |d.target_rate - q| > 5/100 ∧ (update_from_dict d now u).1.target_rate = q) ∧
      ((update_from_dict d now u).1.flow_rate ≠ d.flow_rate →
        ∃ x q, u.pump = some x ∧ pyFloat x.flow_rate = some q ∧
          |d.flow_rate - q| > 5/100 ∧ (update_from_dict d now u).1.flow_rate = q) ∧
      ((update_from_dict d now u).1.pump_state ≠ d.pump_state →
        ∃ x v, u.pump = some x ∧ x.pump_state = some v ∧ v ≠ PyVal.none ∧
          (update_from_dict d now u).1.pump_state = pyStr v ∧ pyStr v ≠ d.pump_state) ∧
      ((update_from_dict d now u).1.pump2_target_rate ≠ d.pump2_target_rate →
        ∃ x q, u.pump2 = some x ∧ pyFloat x.target_rate = some q ∧
          |d.pump2_target_rate - q| > 5/100 ∧ (update_from_dict d now u).1.pump2_target_rate = q) ∧
      ((update_from_dict d now u).1.pump2_flow_rate ≠ d.pump2_flow_rate →
        ∃ x q, u.pump2 = some x ∧ pyFloat x.flow_rate = some q ∧
          |d.pump2_flow_rate - q| > 5/100 ∧ (update_from_dict d now u).1.pump2_flow_rate = q) ∧
      ((update_from_dict d now u).1.pump2_pump_state ≠ d.pump2_pump_state →
        ∃ x v, u.pump2 = some x ∧ x.pump_state = some v ∧ v ≠ PyVal.none ∧
          (update_from_dict d now u).1.pump2_pump_state = pyStr v ∧ pyStr v ≠ d.pump2_pump_state) ∧
      ((update_from_dict d now u).1.battery_voltage ≠ d.battery_voltage →
        ∃ x q, u.solar = some x ∧ pyFloat x.battery_voltage = some q ∧
          |d.battery_voltage - q| > 1/10 ∧ (update_from_dict d now u).1.battery_voltage = q) ∧
      ((update_from_dict d now u).1.battery_percentage ≠ d.battery_percentage →
        ∃ x q, u.solar = some x ∧ pyFloat x.battery_percentage = some q ∧
          |d.battery_percentage - q| > 1/5 ∧ (update_from_dict d now u).1.battery_percentage = q) ∧
      ((update_from_dict d now u).1.panel_power ≠ d.panel_power →
        ∃ x q, u.solar = some x ∧ pyFloat x.panel_power = some q ∧
          |d.panel_power - q| > 1/10 ∧ (update_from_dict d now u).1.panel_power = q) ∧
      ((update_from_dict d now u).1.battery_ah ≠ d.battery_ah →
        ∃ x q, u.solar = some x ∧ pyFloat x.battery_ah = some q ∧
          |d.battery_ah - q| > 1/10 ∧ (update_from_dict d now u).1.battery_ah = q) ∧
      ((update_from_dict d now u).1.tank_level_mm ≠ d.tank_level_mm →
        ∃ x q, u.tank = some x ∧ pyFloat x.tank_level_mm = some q ∧
          |d.tank_level_mm - q| > 1 ∧ (update_from_dict d now u).1.tank_level_mm = q) ∧
      ((update_from_dict d now u).1.tank_level_percent ≠ d.tank_level_percent →
        ∃ x q, u.tank = some x ∧ pyFloat x.tank_level_percent = some q ∧
          |d.tank_level_percent - q| > 1 ∧ (update_from_dict d now u).1.tank_level_percent = q) ∧
      ((update_from_dict d now u).1.skid_flow ≠ d.skid_flow →
        ∃ x q, u.skid = some x ∧ pyFloat x.skid_flow = some q ∧
          |d.skid_flow - q| > 1/10 ∧ (update_from_dict d now u).1.skid_flow = q) ∧
      ((update_from_dict d now u).1.skid_pressure ≠ d.skid_pressure →
        ∃ x q, u.skid = some x ∧ pyFloat x.skid_pressure = some q ∧
          |d.skid_pressure - q| > 10 ∧ (update_from_dict d now u).1.skid_pressure = q) ∧
      ((update_from_dict d now u).1.system_status ≠ d.system_status →
        ∃ x v, u.system = some x ∧ x.status = some v ∧ v ≠ PyVal.none ∧
          (update_from_dict d now u).1.system_status = pyStr v ∧ pyStr v ≠ d.system_status) ∧
      ((update_from_dict d now u).1.hh_pressure ≠ d.hh_pressure →
        ∃ x w, u.faults = some x ∧ x.hh_pressure = some w ∧
          (update_from_dict d now u).1.hh_pressure = to_bool w d.hh_pressure ∧ to_bool w d.hh_pressure ≠ d.hh_pressure) ∧
      ((update_from_dict d now u).1.ll_tank_level ≠ d.ll_tank_level →
        ∃ x w, u.faults = some x ∧ x.ll_tank_level = some w ∧
          (update_from_dict d now u).1.ll_tank_level = to_bool w d.ll_tank_level ∧ to_bool w d.ll_tank_level ≠ d.ll_tank_level)) := by
  intro d now u hnow
  have iTR : ((inSection u.pump d.target_rate fun p => updateNumeric d.target_rate p.target_rate (5/100)).2 = true ↔
      (inSection u.pump d.target_rate fun p => updateNumeric d.target_rate p.target_rate (5/100)).1 ≠ d.target_rate) :=
    inSection_snd_iff _ _ _ (fun x => updateNumeric_snd_iff _ _ _ (by norm_num))
  have iFR : ((inSection u.pump d.flow_rate fun p => updateNumeric d.flow_rate p.flow_rate (5/100)).2 = true ↔
      (inSection u.pump d.flow_rate fun p => updateNumeric d.flow_rate p.flow_rate (5/100)).1 ≠ d.flow_rate) :=
    inSection_snd_iff _ _ _ (fun x => updateNumeric_snd_iff _ _ _ (by norm_num))
  have iPS : ((inSection u.pump d.pump_state fun p => updateString d.pump_state (getOr p.pump_state (PyVal.str d.pump_state))).2 = true ↔
      (inSection u.pump d.pump_state fun p => updateString d.pump_state (getOr p.pump_state (PyVal.str d.pump_state))).1 ≠ d.pump_state) :=
    inSection_snd_iff _ _ _ (fun x => updateString_snd_iff _ _)
  have iGTR : ((inSection u.pump2 d.pump2_target_rate fun p => updateNumeric d.pump2_target_rate p.target_rate (5/100)).2 = true ↔
      (inSection u.pump2 d.pump2_target_rate fun p => updateNumeric d.pump2_target_rate p.target_rate (5/100)).1 ≠ d.pump2_target_rate) :=
    inSection_snd_iff _ _ _ (fun x => updateNumeric_snd_iff _ _ _ (by norm_num))
  have iGFR : ((inSection u.pump2 d.pump2_flow_rate fun p => updateNumeric d.pump2_flow_rate p.flow_rate (5/100)).2 = true ↔
      (inSection u.pump2 d.pump2_flow_rate fun p => updateNumeric d.pump2_flow_rate p.flow_rate (5/100)).1 ≠ d.pump2_flow_rate) :=
    inSection_snd_iff _ _ _ (fun x => updateNumeric_snd_iff _ _ _ (by norm_num))
  have iGPS : ((inSection u.pump2 d.pump2_pump_state fun p => updateString d.pump2_pump_state (getOr p.pump_state (PyVal.str d.pump2_pump_state))).2 = true ↔
      (inSection u.pump2 d.pump2_pump_state fun p => updateString d.pump2_pump_state (getOr p.pump_state (PyVal.str d.pump2_pump_state))).1 ≠ d.pump2_pump_state) :=
    inSection_snd_iff _ _ _ (fun x => updateString_snd_iff _ _)
  have iBV : ((inSection u.solar d.battery_voltage fun s => updateNumeric d.battery_voltage s.battery_voltage (1/10)).2 = true ↔
      (inSection u.solar d.battery_voltage fun s => updateNumeric d.battery_voltage s.battery_voltage (1/10)).1 ≠ d.battery_voltage) :=
    inSection_snd_iff _ _ _ (fun x => updateNumeric_snd_iff _ _ _ (by norm_num))
  have iBP : ((inSection u.solar d.battery_percentage fun s => updateNumeric d.battery_percentage s.battery_percentage (1/5)).2 = true ↔
      (inSection u.solar d.battery_percentage fun s => updateNumeric d.battery_percentage s.battery_percentage (1/5)).1 ≠ d.battery_percentage) :=
    inSection_snd_iff _ _ _ (fun x => updateNumeric_snd_iff _ _ _ (by norm_num))
  have iPP : ((inSection u.solar d.panel_power fun s => updateNumeric d.panel_power s.panel_power (1/10)).2 = true ↔
      (inSection u.solar d.panel_power fun s => updateNumeric d.panel_power s.panel_power (1/10)).1 ≠ d.panel_power) :=
    inSection_snd_iff _ _ _ (fun x => updateNumeric_snd_iff _ _ _ (by norm_num))
  have iAH : ((inSection u.solar d.battery_ah fun s => updateNumeric d.battery_ah s.battery_ah (1/10)).2 = true ↔
      (inSection u.solar d.battery_ah fun s => updateNumeric d.battery_ah s.battery_ah (1/10)).1 ≠ d.battery_ah) :=
    inSection_snd_iff _ _ _ (fun x => updateNumeric_snd_iff _ _ _ (by norm_num))
  have iTM : ((inSection u.tank d.tank_level_mm fun t => updateNumeric d.tank_level_mm t.tank_level_mm (1)).2 = true ↔
      (inSection u.tank d.tank_level_mm fun t => updateNumeric d.tank_level_mm t.tank_level_mm (1)).1 ≠ d.tank_level_mm) :=
    inSection_snd_iff _ _ _ (fun x => updateNumeric_snd_iff _ _ _ (by norm_num))
  have iTP : ((inSection u.tank d.tank_level_percent fun t => updateNumeric d.tank_level_percent t.tank_level_percent (1)).2 = true ↔
      (inSection u.tank d.tank_level_percent fun t => updateNumeric d.tank_level_percent t.tank_level_percent (1)).1 ≠ d.tank_level_percent) :=
    inSection_snd_iff _ _ _ (fun x => updateNumeric_snd_iff _ _ _ (by norm_num))
  have iSF : ((inSection u.skid d.skid_flow fun s => updateNumeric d.skid_flow s.skid_flow (1/10)).2 = true ↔
      (inSection u.skid d.skid_flow fun s => updateNumeric d.skid_flow s.skid_flow (1/10)).1 ≠ d.skid_flow) :=
    inSection_snd_iff _ _ _ (fun x => updateNumeric_snd_iff _ _ _ (by norm_num))
  have iSP : ((inSection u.skid d.skid_pressure fun s => updateNumeric d.skid_pressure s.skid_pressure (10)).2 = true ↔
      (inSection u.skid d.skid_pressure fun s => updateNumeric d.skid_pressure s.skid_pressure (10)).1 ≠ d.skid_pressure) :=
    inSection_snd_iff _ _ _ (fun x => updateNumeric_snd_iff _ _ _ (by norm_num))
  have iSS : ((inSection u.system d.system_status fun s => updateString d.system_status (getOr s.status (PyVal.str d.system_status))).2 = true ↔
      (inSection u.system d.system_status fun s => updateString d.system_status (getOr s.status (PyVal.str d.system_status))).1 ≠ d.system_status) :=
    inSection_snd_iff _ _ _ (fun x => updateString_snd_iff _ _)
  have iHH : ((inSection u.faults d.hh_pressure fun f => update_bool d.hh_pressure f.hh_pressure).2 = true ↔
      (inSection u.faults d.hh_pressure fun f => update_bool d.hh_pressure f.hh_pressure).1 ≠ d.hh_pressure) :=
    inSection_snd_iff _ _ _ (fun x => update_bool_snd_iff _ _)
  have iLL : ((inSection u.faults d.ll_tank_level fun f => update_bool d.ll_tank_level f.ll_tank_level).2 = true ↔
      (inSection u.faults d.ll_tank_level fun f => update_bool d.ll_tank_level f.ll_tank_level).1 ≠ d.ll_tank_level) :=
    inSection_snd_iff _ _ _ (fun x => update_bool_snd_iff _ _)
  have hch : ((update_from_dict d now u).2 = true ↔
      ((update_from_dict d now u).1.target_rate ≠ d.target_rate ∨
         (update_from_dict d now u).1.flow_rate ≠ d.flow_rate ∨
         (update_from_dict d now u).1.pump_state ≠ d.pump_state ∨
         (update_from_dict d now u).1.pump2_target_rate ≠ d.pump2_target_rate ∨
         (update_from_dict d now u).1.pump2_flow_rate ≠ d.pump2_flow_rate ∨
         (update_from_dict d now u).1.pump2_pump_state ≠ d.pump2_pump_state ∨
         (update_from_dict d now u).1.battery_voltage ≠ d.battery_voltage ∨
         (update_from_dict d now u).1.battery_percentage ≠ d.battery_percentage ∨
         (update_from_dict d now u).1.panel_power ≠ d.panel_power ∨
         (update_from_dict d now u).1.battery_ah ≠ d.battery_ah ∨
         (update_from_dict d now u).1.tank_level_mm ≠ d.tank_level_mm ∨
         (update_from_dict d now u).1.tank_level_percent ≠ d.tank_level_percent ∨
         (update_from_dict d now u).1.skid_flow ≠ d.skid_flow ∨
         (update_from_dict d now u).1.skid_pressure ≠ d.skid_pressure ∨
         (update_from_dict d now u).1.system_status ≠ d.system_status ∨
         (update_from_dict d now u).1.hh_pressure ≠ d.hh_pressure ∨
         (update_from_dict d now u).1.ll_tank_level ≠ d.ll_tank_level)) := by
    dsimp only [update_from_dict]
    simp only [Bool.or_eq_true, or_assoc]
    rw [iTR, iFR, iPS, iGTR, iGFR, iGPS, iBV, iBP, iPP, iAH, iTM, iTP, iSF, iSP, iSS, iHH, iLL]
  refine ⟨hch, ?_, ?_, ?_, ?_, ?_, ?_, ?_, ?_, ?_, ?_, ?_, ?_, ?_, ?_, ?_, ?_, ?_, ?_, ?_, ?_⟩
  · exact timestamp_iff_aux ((update_from_dict d now u).2) d.timestamp now hnow
  · exact fun h => ite_true_eq ((update_from_dict d now u).2) d.timestamp now h
  · intro hf
    have hnd : ¬ ((update_from_dict d now u).1.target_rate ≠ d.target_rate ∨
         (update_from_dict d now u).1.flow_rate ≠ d.flow_rate ∨
         (update_from_dict d now u).1.pump_state ≠ d.pump_state ∨
         (update_from_dict d now u).1.pump2_target_rate ≠ d.pump2_target_rate ∨
         (update_from_dict d now u).1.pump2_flow_rate ≠ d.pump2_flow_rate ∨
         (update_from_dict d now u).1.pump2_pump_state ≠ d.pump2_pump_state ∨
         (update_from_dict d now u).1.battery_voltage ≠ d.battery_voltage ∨
         (update_from_dict d now u).1.battery_percentage ≠ d.battery_percentage ∨
         (update_from_dict d now u).1.panel_power ≠ d.panel_power ∨
         (update_from_dict d now u).1.battery_ah ≠ d.battery_ah ∨
         (update_from_dict d now u).1.tank_level_mm ≠ d.tank_level_mm ∨
         (update_from_dict d now u).1.tank_level_percent ≠ d.tank_level_percent ∨
         (update_from_dict d now u).1.skid_flow ≠ d.skid_flow ∨
         (update_from_dict d now u).1.skid_pressure ≠ d.skid_pressure ∨
         (update_from_dict d now u).1.system_status ≠ d.system_status ∨
         (update_from_dict d now u).1.hh_pressure ≠ d.hh_pressure ∨
         (update_from_dict d now u).1.ll_tank_level ≠ d.ll_tank_level) := by
      intro hd
      have hfx := hch.mpr hd
      rw [hf] at hfx
      exact absurd hfx (by simp)
    push_neg at hnd
    obtain ⟨e1, e2, e3, e4, e5, e6, e7, e8, e9, e10, e11, e12, e13, e14, e15, e16, e17⟩ := hnd
    apply DashboardData.ext <;>
      first
        | assumption
        | exact ite_false_eq ((update_from_dict d now u).2) d.timestamp now hf
  · exact fun h => numeric_field_policy d.target_rate u.pump PumpSection.target_rate (5/100) h
  · exact fun h => numeric_field_policy d.flow_rate u.pump PumpSection.flow_rate (5/100) h
  · exact fun h => string_field_policy d.pump_state u.pump PumpSection.pump_state h
  · exact fun h => numeric_field_policy d.pump2_target_rate u.pump2 PumpSection.target_rate (5/100) h
  · exact fun h => numeric_field_policy d.pump2_flow_rate u.pump2 PumpSection.flow_rate (5/100) h
  · exact fun h => string_field_policy d.pump2_pump_state u.pump2 PumpSection.pump_state h
  · exact fun h => numeric_field_policy d.battery_voltage u.solar SolarSection.battery_voltage (1/10) h
  · exact fun h => numeric_field_policy d.battery_percentage u.solar SolarSection.battery_percentage (1/5) h
  · exact fun h => numeric_field_policy d.panel_power u.solar SolarSection.panel_power (1/10) h
  · exact fun h => numeric_field_policy d.battery_ah u.solar SolarSection.battery_ah (1/10) h
  · exact fun h => numeric_field_policy d.tank_level_mm u.tank TankSection.tank_level_mm (1) h
  · exact fun h => numeric_field_policy d.tank_level_percent u.tank TankSection.tank_level_percent (1) h
  · exact fun h => numeric_field_policy d.skid_flow u.skid SkidSection.skid_flow (1/10) h
  · exact fun h => numeric_field_policy d.skid_pressure u.skid SkidSection.skid_pressure (10) h
  · exact fun h => string_field_policy d.system_status u.system SystemSection.status h
  · exact fun h => bool_field_policy d.hh_pressure u.faults FaultsSection.hh_pressure h
  · exact fun h => bool_field_policy d.ll_tank_level u.faults FaultsSection.ll_tank_level h

/-- C10: the snapshot update is total on typed sections and silently skips
unusable numeric leaves.  For every numeric field, an input value on which
float conversion fails (None, or a non-numeric string) leaves the field at
its previous value; and a dictionary all of whose leaves are such values
changes nothing, returns false and leaves the timestamp untouched.  The
embedding returns Option for the float conversion exactly where the source
catches TypeError and ValueError, so no error escapes update_from_dict. -/
theorem C10_unconvertible_skipped :
    ∀ (d : DashboardData) (now : Nat) (u : UpdateDict),
      (∀ x, u.pump = some x → pyFloat x.target_rate = Option.none →
        (update_from_dict d now u).1.target_rate = d.target_rate) ∧
      (∀ x, u.pump = some x → pyFloat x.flow_rate = Option.none →
        (update_from_dict d now u).1.flow_rate = d.flow_rate) ∧
      (∀ x, u.pump2 = some x → pyFloat x.target_rate = Option.none →
        (update_from_dict d now u).1.pump2_target_rate = d.pump2_target_rate) ∧
      (∀ x, u.pump2 = some x → pyFloat x.flow_rate = Option.none →
        (update_from_dict d now u).1.pump2_flow_rate = d.pump2_flow_rate) ∧
      (∀ x, u.solar = some x → pyFloat x.battery_voltage = Option.none →
        (update_from_dict d now u).1.battery_voltage = d.battery_voltage) ∧
      (∀ x, u.solar = some x → pyFloat x.battery_percentage = Option.none →
        (update_from_dict d now u).1.battery_percentage = d.battery_percentage) ∧
      (∀ x, u.solar = some x → pyFloat x.panel_power = Option.none →
        (update_from_dict d now u).1.panel_power = d.panel_power) ∧
      (∀ x, u.solar = some x → pyFloat x.battery_ah = Option.none →
        (update_from_dict d now u).1.battery_ah = d.battery_ah) ∧
      (∀ x, u.tank = some x → pyFloat x.tank_level_mm = Option.none →
        (update_from_dict d now u).1.tank_level_mm = d.tank_level_mm) ∧
      (∀ x, u.tank = some x → pyFloat x.tank_level_percent = Option.none →
        (update_from_dict d now u).1.tank_level_percent = d.tank_level_percent) ∧
      (∀ x, u.skid = some x → pyFloat x.skid_flow = Option.none →
        (update_from_dict d now u).1.skid_flow = d.skid_flow) ∧
      (∀ x, u.skid = some x → pyFloat x.skid_pressure = Option.none →
        (update_from_dict d now u).1.skid_pressure = d.skid_pressure) ∧
      (∀ (p p2 : PumpSection) (so : SolarSection) (t : TankSection) (sk : SkidSection),
        pyFloat p.target_rate = Option.none → pyFloat p.flow_rate = Option.none →
        p.pump_state = Option.none →
        pyFloat p2.target_rate = Option.none → pyFloat p2.flow_rate = Option.none →
        p2.pump_state = Option.none →
        pyFloat so.battery_voltage = Option.none → pyFloat so.battery_percentage = Option.none →
        pyFloat so.panel_power = Option.none → pyFloat so.battery_ah = Option.none →
        pyFloat t.tank_level_mm = Option.none → pyFloat t.tank_level_percent = Option.none →
        pyFloat sk.skid_flow = Option.none → pyFloat sk.skid_pressure = Option.none →
        update_from_dict d now ⟨some p, some p2, some so, some t, some sk, Option.none, Option.none⟩ = (d, false)) := by
  intro d now u
  refine ⟨?_, ?_, ?_, ?_, ?_, ?_, ?_, ?_, ?_, ?_, ?_, ?_, ?_⟩
  · exact fun x hx hn => numeric_field_skip d.target_rate u.pump PumpSection.target_rate (5/100) x hx hn
  · exact fun x hx hn => numeric_field_skip d.flow_rate u.pump PumpSection.flow_rate (5/100) x hx hn
  · exact fun x hx hn => numeric_field_skip d.pump2_target_rate u.pump2 PumpSection.target_rate (5/100) x hx hn
  · exact fun x hx hn => numeric_field_skip d.pump2_flow_rate u.pump2 PumpSection.flow_rate (5/100) x hx hn
  · exact fun x hx hn => numeric_field_skip d.battery_voltage u.solar SolarSection.battery_voltage (1/10) x hx hn
  · exact fun x hx hn => numeric_field_skip d.battery_percentage u.solar SolarSection.battery_percentage (1/5) x hx hn
  · exact fun x hx hn => numeric_field_skip d.panel_power u.solar SolarSection.panel_power (1/10) x hx hn
  · exact fun x hx hn => numeric_field_skip d.battery_ah u.solar SolarSection.battery_ah (1/10) x hx hn
  · exact fun x hx hn => numeric_field_skip d.tank_level_mm u.tank TankSection.tank_level_mm (1) x hx hn
  · exact fun x hx hn => numeric_field_skip d.tank_level_percent u.tank TankSection.tank_level_percent (1) x hx hn
  · exact fun x hx hn => numeric_field_skip d.skid_flow u.skid SkidSection.skid_flow (1/10) x hx hn
  · exact fun x hx hn => numeric_field_skip d.skid_pressure u.skid SkidSection.skid_pressure (10) x hx hn
  · intro p p2 so t sk h1 h2 h3 h4 h5 h6 h7 h8 h9 h10 h11 h12 h13 h14
    have e1 := updateNumeric_none_eq d.target_rate p.target_rate (5/100) h1
    have e2 := updateNumeric_none_eq d.flow_rate p.flow_rate (5/100) h2
    have e3 : updateString d.pump_state (getOr p.pump_state (PyVal.str d.pump_state)) = (d.pump_state, false) := by
      rw [h3]
      exact updateString_self _
    have e4 := updateNumeric_none_eq d.pump2_target_rate p2.target_rate (5/100) h4
    have e5 := updateNumeric_none_eq d.pump2_flow_rate p2.flow_rate (5/100) h5
    have e6 : updateString d.pump2_pump_state (getOr p2.pump_state (PyVal.str d.pump2_pump_state)) = (d.pump2_pump_state, false) := by
      rw [h6]
      exact updateString_self _
    have e7 := updateNumeric_none_eq d.battery_voltage so.battery_voltage (1/10) h7
    have e8 := updateNumeric_none_eq d.battery_percentage so.battery_percentage (1/5) h8
    have e9 := updateNumeric_none_eq d.panel_power so.panel_power (1/10) h9
    have e10 := updateNumeric_none_eq d.battery_ah so.battery_ah (1/10) h10
    have e11 := updateNumeric_none_eq d.tank_level_mm t.tank_level_mm 1 h11
    have e12 := updateNumeric_none_eq d.tank_level_percent t.tank_level_percent 1 h12
    have e13 := updateNumeric_none_eq d.skid_flow sk.skid_flow (1/10) h13
    have e14 := updateNumeric_none_eq d.skid_pressure sk.skid_pressure 10 h14
    dsimp only [update_from_dict, inSection]
    rw [e1, e2, e3, e4, e5, e6, e7, e8, e9, e10, e11, e12, e13, e14]
    simp

/-- Witness for C4: updating the fresh snapshot with target_rate 10 (a change
beyond the 0.05 tolerance) sets the timestamp to the supplied time. -/
theorem C4_update_policy_witness :
    (update_from_dict initData 1
      ⟨some ⟨PyVal.num 10, PyVal.none, Option.none⟩,
       Option.none, Option.none, Option.none, Option.none, Option.none,
       Option.none⟩).1.timestamp = 1 :=
  (C4_update_policy initData 1
      ⟨some ⟨PyVal.num 10, PyVal.none, Option.none⟩,
       Option.none, Option.none, Option.none, Option.none, Option.none,
       Option.none⟩
      (by norm_num [initData])).2.2.1
    (by norm_num [update_from_dict, inSection, updateNumeric, pyFloat, initData])

/-- Witness for C10: a dictionary whose numeric leaves are all None or a
non-numeric string is applied without effect. -/
theorem C10_unconvertible_skipped_witness :
    update_from_dict initData 5
      ⟨some ⟨PyVal.none, PyVal.str "abc", Option.none⟩,
       some ⟨PyVal.none, PyVal.none, Option.none⟩,
       some ⟨PyVal.none, PyVal.none, PyVal.none, PyVal.none⟩,
       some ⟨PyVal.none, PyVal.none⟩,
       some ⟨PyVal.none, PyVal.none⟩,
       Option.none, Option.none⟩ = (initData, false) :=
  (C10_unconvertible_skipped initData 5
      ⟨Option.none, Option.none, Option.none, Option.none, Option.none,
       Option.none, Option.none⟩).2.2.2.2.2.2.2.2.2.2.2.2
    ⟨PyVal.none, PyVal.str "abc", Option.none⟩
    ⟨PyVal.none, PyVal.none, Option.none⟩
    ⟨PyVal.none, PyVal.none, PyVal.none, PyVal.none⟩
    ⟨PyVal.none, PyVal.none⟩
    ⟨PyVal.none, PyVal.none⟩
    rfl (by decide) rfl rfl rfl rfl rfl rfl rfl rfl rfl rfl rfl rfl

end Napd
